import Mathlib

/-!
Shallow embedding of `src/main.cpp` (MarkVTech/ParameterTraits).

The source file contains two self-contained C++ programs:

* a property-store demo: `PropertyTraits<T>` specializations for
  `TemperatureSetpoint` (one `float`) and `DeviceVoltage` (one `int16_t`),
  a type-erased handler table `kPropertyTable` built by `makeHandler<T>`,
  and an in-RAM `PropertyStore` with `setRaw`/`getRaw`/`set`/`get`/
  `setFromText`/`getAsText`;
* a minimal parameters demo: `ParameterTraits<T>` specializations for a second
  `TemperatureSetpoint` and a `HighTemperatureAlarm` (no store).

Modelling conventions:

* The C `float` scalar is modelled by `CFloat`, the exact rational value a
  parsed decimal token denotes, kept as an unreduced numerator/denominator
  pair.  Binary32 rounding is not modelled; every concrete value appearing in
  the source and in the verified scenarios (23.0, 37.5, -1234.0, 80.0, ...)
  is exactly representable in binary32, where the modelled comparisons and
  renderings agree with the C ones.  Two pairs denoting the same rational
  correspond to byte-identical floats in C.
* `int16_t` is modelled by `Int` together with `toInt16`, the two's-complement
  wrap applied where the source casts (`static_cast<int16_t>`).
* `const char*` text arguments are modelled by `Option String`
  (`none` = null pointer).
* `strtof`/`strtol` are modelled on their decimal forms (optional leading
  spaces, optional sign, digits, and for `strtof` an optional fraction part).
  Hexadecimal/infinity/nan/exponent spellings and `long` overflow clamping are
  not exercised by anything in the source or the verified scenarios.
* `snprintf(out, n, ...)` is modelled as a pair: the value the call returns
  (the full rendered length) and the text actually written into the
  destination, truncated to `n - 1` characters (`none` when nothing was
  written).
* A byte buffer holding a value of a registered type is modelled by the tagged
  sum `PropValue`; `memcpy` of a value's bytes becomes storing the tagged
  value, and byte-for-byte equality of two same-sized buffers is equality of
  the tagged values.  A slot's zero-initialized, never-written buffer is
  `none`.
-/

set_option maxRecDepth 8000

/-! ### C text helpers: character classes, digits, `strtol`/`strtof` models -/

/-- `isspace` on the characters C's `strtol`/`strtof` skip. -/
def isSpaceChar (c : Char) : Bool :=
  c = ' ' ∨ c = '\t' ∨ c = '\n' ∨ c = '\r' ∨ c = Char.ofNat 11 ∨ c = Char.ofNat 12

/-- Value of a decimal digit character, `none` for a non-digit. -/
def digitVal (c : Char) : Option Nat :=
  if '0' ≤ c ∧ c ≤ '9' then some (c.toNat - 48) else none

/-- The character for a decimal digit `d < 10`. -/
def digitChar (d : Nat) : Char := Char.ofNat (48 + d)

/-- Splits the longest leading run of decimal digits off a character list. -/
def takeDigits : List Char → List Nat × List Char
  | [] => ([], [])
  | c :: cs =>
    match digitVal c with
    | some d => let p := takeDigits cs; (d :: p.1, p.2)
    | none => ([], c :: cs)

/-- Numeric value of a big-endian digit list. -/
def valueOfDigits (ds : List Nat) : Nat :=
  ds.foldl (fun a d => 10 * a + d) 0

/-- Consumes an optional leading sign; returns whether it was `-`. -/
def parseSign : List Char → Bool × List Char
  | [] => (false, [])
  | c :: cs =>
    if c = '-' then (true, cs)
    else if c = '+' then (false, cs)
    else (false, c :: cs)

/-- Model of `strtol(in, &end, 10)` restricted to its success/value behavior:
`none` when no digits are consumed (`end == in`), otherwise the signed value
of the consumed decimal token.  (`long` overflow clamping is not modelled.) -/
def strtolModel (s : List Char) : Option Int :=
  let s1 := s.dropWhile isSpaceChar
  let p := parseSign s1
  let q := takeDigits p.2
  if q.1.isEmpty then none
  else some (if p.1 then -(valueOfDigits q.1 : Int) else (valueOfDigits q.1 : Int))

/-- Exact-value model of the C `float` scalar: the rational `num / den` it
denotes, as an unreduced pair.  `den` is positive for every value built in
this development. -/
structure CFloat where
  num : Int
  den : Nat
deriving DecidableEq

/-- The float denoting an integer. -/
def CFloat.ofInt (n : Int) : CFloat := ⟨n, 1⟩

/-- `a <= b` on modelled floats (cross multiplication; denominators are
positive for every value built here). -/
def CFloat.le (a b : CFloat) : Bool :=
  decide (a.num * (b.den : Int) ≤ b.num * (a.den : Int))

/-- Model of `strtof(in, &end)` restricted to its success/value behavior on
decimal tokens: `none` when no digits are consumed (`end == in`), otherwise
the exact value of the consumed token `[sign] digits [. digits]`. -/
def strtofModel (s : List Char) : Option CFloat :=
  let s1 := s.dropWhile isSpaceChar
  let p := parseSign s1
  let q := takeDigits p.2
  let r : List Nat × List Char :=
    match q.2 with
    | '.' :: rest => takeDigits rest
    | _ => ([], q.2)
  if q.1.isEmpty ∧ r.1.isEmpty then none
  else
    let mag : Nat := valueOfDigits q.1 * 10 ^ r.1.length + valueOfDigits r.1
    some ⟨if p.1 then -(mag : Int) else (mag : Int), 10 ^ r.1.length⟩

/-- Two's-complement wrap to `int16_t`, as performed by
`static_cast<int16_t>` on this target. -/
def toInt16 (v : Int) : Int := (v + 32768) % 65536 - 32768

/-! ### Decimal rendering: the `%d` and `%.2f` conversions of `snprintf` -/

/-- Little-endian decimal digits of `n`, with explicit fuel so that the
definition is structural (the fuel `n` always suffices, see
`natDigsAux_eq_digits`). -/
def natDigsAux : Nat → Nat → List Nat
  | _, 0 => []
  | 0, _ + 1 => []
  | fuel + 1, n + 1 => (n + 1) % 10 :: natDigsAux fuel ((n + 1) / 10)

/-- Little-endian decimal digits of `n` (empty for `0`). -/
def natDigs (n : Nat) : List Nat := natDigsAux n n

/-- Decimal rendering of a natural number: plain digits, no leading zeros. -/
def natRepr (n : Nat) : String :=
  if n = 0 then "0" else String.mk ((natDigs n).reverse.map digitChar)

/-- `%d` rendering of an integer: minus sign only if negative, then plain
decimal digits. -/
def intRepr (v : Int) : String :=
  (if v < 0 then "-" else "") ++ natRepr v.natAbs

/-- `%.2f` rendering of a modelled float: fixed two decimals.  The rendered
value is `round(x * 100)` in hundredths; for the exactly-centesimal values
this development evaluates, no rounding occurs (the tie-rounding of the
underlying binary float is not modelled). -/
def fixed2 (x : CFloat) : String :=
  let cents : Nat := (Int.fdiv (x.num * 200 + (x.den : Int)) (2 * (x.den : Int))).natAbs
  (if x.num < 0 then "-" else "") ++
    natRepr (cents / 100) ++ "." ++
    String.mk [digitChar (cents / 10 % 10), digitChar (cents % 10)]

/-- Model of one `snprintf(out, n, ...)` call that renders the text `s`:
returns the full length (the C return value) and the text written into the
destination, truncated to `n - 1` characters. -/
def snprintfModel (s : String) (n : Nat) : Int × Option String :=
  ((s.length : Int), some (s.take (n - 1)))

/-! ### Program 1: `PropertyTraits`, the handler table and `PropertyStore` -/

/-- `enum class StorageKind` (only `Volatile` is implemented). -/
inductive StorageKind where
  | Volatile
deriving DecidableEq

/-- `struct TemperatureSetpoint { float value; }`. -/
structure TemperatureSetpoint where
  value : CFloat
deriving DecidableEq

/-- `struct DeviceVoltage { int16_t value; }`. -/
structure DeviceVoltage where
  value : Int
deriving DecidableEq

/-- `enum class PropertyID : uint16_t`. -/
inductive PropertyID where
  | TemperatureSetpoint
  | DeviceVoltage
deriving DecidableEq, Fintype

/-- Ordinal of a `PropertyID` (its underlying enum value). -/
def PropertyID.toNat : PropertyID → Nat
  | .TemperatureSetpoint => 0
  | .DeviceVoltage => 1

namespace PropertyTraitsTemperatureSetpoint

/-- `PropertyTraits<TemperatureSetpoint>::name`. -/
def name : String := "TemperatureSetpoint"

/-- `PropertyTraits<TemperatureSetpoint>::key`. -/
def key : String := "temperature"

/-- `PropertyTraits<TemperatureSetpoint>::storage`. -/
def storage : StorageKind := .Volatile

/-- `PropertyTraits<TemperatureSetpoint>::default_v { 23.0f }`. -/
def default_v : TemperatureSetpoint := ⟨CFloat.ofInt 23⟩

/-- `validate`: `t.value >= -50.0f && t.value <= 150.0f`. -/
def validate (t : TemperatureSetpoint) : Bool :=
  CFloat.le (CFloat.ofInt (-50)) t.value && CFloat.le t.value (CFloat.ofInt 150)

/-- `parse(const char* in, TemperatureSetpoint& out)`: null check, `strtof`,
fail when no characters were consumed, otherwise write the value into `out`
and return `true`.  The pair is the returned flag and the final content of
the `out` argument. -/
def parse (in? : Option String) (out : TemperatureSetpoint) :
    Bool × TemperatureSetpoint :=
  match in? with
  | none => (false, out)
  | some s =>
    match strtofModel s.data with
    | none => (false, out)
    | some v => (true, ⟨v⟩)

/-- `serialize`: `snprintf(out, n, "%.2f", in.value)`. -/
def serialize (t : TemperatureSetpoint) (n : Nat) : Int × Option String :=
  snprintfModel (fixed2 t.value) n

end PropertyTraitsTemperatureSetpoint

namespace PropertyTraitsDeviceVoltage

/-- `PropertyTraits<DeviceVoltage>::name`. -/
def name : String := "DeviceVoltage"

/-- `PropertyTraits<DeviceVoltage>::key`. -/
def key : String := "pressure"

/-- `PropertyTraits<DeviceVoltage>::storage`. -/
def storage : StorageKind := .Volatile

/-- `PropertyTraits<DeviceVoltage>::default_v { 1013 }`. -/
def default_v : DeviceVoltage := ⟨1013⟩

/-- `validate`: `p.value > 0 && p.value < 20000`. -/
def validate (p : DeviceVoltage) : Bool :=
  decide (0 < p.value) && decide (p.value < 20000)

/-- `parse(const char* in, DeviceVoltage& out)`: null check, `strtol` base 10,
fail when no characters were consumed, otherwise store
`static_cast<int16_t>(v)` into `out` and return `true`. -/
def parse (in? : Option String) (out : DeviceVoltage) : Bool × DeviceVoltage :=
  match in? with
  | none => (false, out)
  | some s =>
    match strtolModel s.data with
    | none => (false, out)
    | some v => (true, ⟨toInt16 v⟩)

/-- `serialize`: `snprintf(out, n, "%d", static_cast<int>(in.value))`. -/
def serialize (p : DeviceVoltage) (n : Nat) : Int × Option String :=
  snprintfModel (intRepr p.value) n

end PropertyTraitsDeviceVoltage

/-! ### Type erasure: `PropertyHandler`, `makeHandler<T>`, `kPropertyTable` -/

/-- The tag of a registered Value Type. -/
inductive PropTag where
  | temp
  | volt
deriving DecidableEq

/-- A byte buffer holding a value of a registered Value Type, modelled as a
tagged sum (byte-for-byte equality of two buffers of the same type is
equality of the payloads). -/
inductive PropValue where
  | temp (t : TemperatureSetpoint)
  | volt (v : DeviceVoltage)
deriving DecidableEq

/-- `sizeof(TemperatureSetpoint)`: one `float`, 4 bytes. -/
def sizeofTemperatureSetpoint : Nat := 4

/-- `sizeof(DeviceVoltage)`: one `int16_t`, 2 bytes. -/
def sizeofDeviceVoltage : Nat := 2

/-- The byte size of the value a buffer holds (`sizeof` of its type). -/
def PropValue.size : PropValue → Nat
  | .temp _ => sizeofTemperatureSetpoint
  | .volt _ => sizeofDeviceVoltage

/-- The tag of a buffer's value. -/
def PropValue.tag : PropValue → PropTag
  | .temp _ => .temp
  | .volt _ => .volt

/-- The Value Type bound to each identifier by the `kPropertyTable`
registration order. -/
def PropertyID.boundTag : PropertyID → PropTag
  | .TemperatureSetpoint => .temp
  | .DeviceVoltage => .volt

/-- `sizeof` of the Value Type bound to each identifier. -/
def PropertyID.sizeofBound : PropertyID → Nat
  | .TemperatureSetpoint => sizeofTemperatureSetpoint
  | .DeviceVoltage => sizeofDeviceVoltage

/-- `struct PropertyHandler`: name, key, byte size, storage kind and the
three type-erased operations.  `parse?`/`serialize?` are `Option`s because
the source's function-pointer fields may be null. -/
structure PropertyHandler where
  name : String
  key : String
  size : Nat
  storage : StorageKind
  parse? : Option (Option String → Option PropValue)
  serialize? : Option (PropValue → Nat → Int × Option String)
  validate : PropValue → Bool

/-- The parse thunk `makeHandler<TemperatureSetpoint>` installs: it runs
`PropertyTraits<TemperatureSetpoint>::parse` on the caller's scratch buffer
(zero bytes reinterpreted as `{0.0f}`); `some` carries the buffer content
after a `true` return, `none` models a `false` return (the scratch content
is then discarded by every caller). -/
def tempParseErased (text : Option String) : Option PropValue :=
  match PropertyTraitsTemperatureSetpoint.parse text ⟨CFloat.ofInt 0⟩ with
  | (true, v) => some (.temp v)
  | (false, _) => none

/-- The serialize thunk `makeHandler<TemperatureSetpoint>` installs.  A buffer
of the other registered type here would be a byte reinterpretation that the
source never performs (every call site fixes the buffer's type); that arm
returns the failure sentinel. -/
def tempSerializeErased (v : PropValue) (n : Nat) : Int × Option String :=
  match v with
  | .temp t => PropertyTraitsTemperatureSetpoint.serialize t n
  | _ => (-1, none)

/-- The validate thunk `makeHandler<TemperatureSetpoint>` installs; as in
`tempSerializeErased`, the wrong-type arm is never reached by the source. -/
def tempValidateErased (v : PropValue) : Bool :=
  match v with
  | .temp t => PropertyTraitsTemperatureSetpoint.validate t
  | _ => false

/-- The parse thunk `makeHandler<DeviceVoltage>` installs (scratch buffer:
zero bytes reinterpreted as `{0}`). -/
def voltParseErased (text : Option String) : Option PropValue :=
  match PropertyTraitsDeviceVoltage.parse text ⟨0⟩ with
  | (true, v) => some (.volt v)
  | (false, _) => none

/-- The serialize thunk `makeHandler<DeviceVoltage>` installs. -/
def voltSerializeErased (v : PropValue) (n : Nat) : Int × Option String :=
  match v with
  | .volt p => PropertyTraitsDeviceVoltage.serialize p n
  | _ => (-1, none)

/-- The validate thunk `makeHandler<DeviceVoltage>` installs. -/
def voltValidateErased (v : PropValue) : Bool :=
  match v with
  | .volt p => PropertyTraitsDeviceVoltage.validate p
  | _ => false

/-- `makeHandler<TemperatureSetpoint>()`: the handler entry assembled from
`PropertyTraits<TemperatureSetpoint>` (`sizeof(T)` and the three erased
thunks; the source's null checks on the trait function pointers always pass,
the traits define all three operations). -/
def tempHandler : PropertyHandler :=
  { name := PropertyTraitsTemperatureSetpoint.name
    key := PropertyTraitsTemperatureSetpoint.key
    size := sizeofTemperatureSetpoint
    storage := PropertyTraitsTemperatureSetpoint.storage
    parse? := some tempParseErased
    serialize? := some tempSerializeErased
    validate := tempValidateErased }

/-- `makeHandler<DeviceVoltage>()`. -/
def voltHandler : PropertyHandler :=
  { name := PropertyTraitsDeviceVoltage.name
    key := PropertyTraitsDeviceVoltage.key
    size := sizeofDeviceVoltage
    storage := PropertyTraitsDeviceVoltage.storage
    parse? := some voltParseErased
    serialize? := some voltSerializeErased
    validate := voltValidateErased }

/-- `kPropertyTable`, in `PropertyID` order. -/
def kPropertyTable : List PropertyHandler := [tempHandler, voltHandler]

/-- `kPropertyCount = sizeof(kPropertyTable) / sizeof(kPropertyTable[0])`. -/
def kPropertyCount : Nat := kPropertyTable.length

/-- `compute_max_size()`: the maximum entry size across the table. -/
def kMaxPropertySize : Nat :=
  (kPropertyTable.map (fun h => h.size)).foldl Nat.max 0

/-- The table access `kPropertyTable[i]` for an arbitrary ordinal `i`.  The
source indexes without any bounds check or assertion, so an out-of-range
ordinal is an undefined out-of-bounds read; the model marks that case
`none`. -/
def handlerAt (i : Nat) : Option PropertyHandler := kPropertyTable.get? i

/-- The identifier's ordinal as an in-range table/slot index. -/
def PropertyID.toIdx : PropertyID → Fin kPropertyCount
  | .TemperatureSetpoint => ⟨0, by decide⟩
  | .DeviceVoltage => ⟨1, by decide⟩

/-! ### `PropertyStore` -/

/-- `PropertyStore::Slot`: buffer content, recorded length, presence flag.
`buf = none` is the zero-initialized, never-written buffer. -/
structure Slot where
  buf : Option PropValue
  sz : Nat
  has_value : Bool
deriving DecidableEq

/-- `struct PropertyStore`: one slot per identifier. -/
structure PropertyStore where
  slots : Fin kPropertyCount → Slot

/-- `PropertyStore store{};`: every slot is created empty. -/
def initStore : PropertyStore := ⟨fun _ => ⟨none, 0, false⟩⟩

/-- `PropertyStore::handler(id)`: `kPropertyTable[static_cast<size_t>(id)]`
for a valid enumerator (see `handlerAt` for the unchecked general index). -/
def PropertyStore.handler (_st : PropertyStore) (id : PropertyID) :
    PropertyHandler :=
  kPropertyTable.get (id.toIdx)

/-- `PropertyStore::setRaw(id, data, sz)`: size check, validate a scratch
copy of the incoming bytes, and only then commit them to the slot. -/
def PropertyStore.setRaw (st : PropertyStore) (id : PropertyID)
    (data : PropValue) (sz : Nat) : Bool × PropertyStore :=
  let h := st.handler id
  if sz ≠ h.size then (false, st)
  else
    let tmp := data
    if h.validate tmp = false then (false, st)
    else
      (true,
        ⟨fun j => if j = id.toIdx then { buf := some data, sz := sz, has_value := true }
          else st.slots j⟩)

/-- `PropertyStore::getRaw(id, out, sz)`: `some v` models returning `true`
after copying the slot's bytes to `out`; `none` models returning `false`
with `out` untouched. -/
def PropertyStore.getRaw (st : PropertyStore) (id : PropertyID) (sz : Nat) :
    Option PropValue :=
  let s := st.slots id.toIdx
  if s.has_value = false ∨ s.sz ≠ sz then none
  else s.buf

/-- `PropertyStore::set<T>(id, v)`: forwards to `setRaw` with `sizeof(T)`
(the size of the caller's static type, which is the size of `v`'s tag). -/
def PropertyStore.set (st : PropertyStore) (id : PropertyID) (v : PropValue) :
    Bool × PropertyStore :=
  st.setRaw id v v.size

/-- `PropertyStore::get<T>(id, out)`: forwards to `getRaw` with `sizeof(T)`;
the requested size is passed explicitly. -/
def PropertyStore.get (st : PropertyStore) (id : PropertyID) (sz : Nat) :
    Option PropValue :=
  st.getRaw id sz

/-- `PropertyStore::setFromText(id, text)`: null-thunk check, parse into a
scratch buffer, validate the parsed bytes, and only then commit `h.size`
bytes to the slot. -/
def PropertyStore.setFromText (st : PropertyStore) (id : PropertyID)
    (text : Option String) : Bool × PropertyStore :=
  let h := st.handler id
  match h.parse? with
  | none => (false, st)
  | some p =>
    match p text with
    | none => (false, st)
    | some tmp =>
      if h.validate tmp = false then (false, st)
      else
        (true,
          ⟨fun j =>
            if j = id.toIdx then { buf := some tmp, sz := h.size, has_value := true }
            else st.slots j⟩)

/-- `PropertyStore::getAsText(id, out, n)`: `-1` (and nothing written) when
no serialize thunk is configured or the slot is empty, otherwise the
serializer's result on the slot's bytes.  The `buf = none` arm is
unreachable: `has_value` is only ever set together with a stored buffer. -/
def PropertyStore.getAsText (st : PropertyStore) (id : PropertyID) (n : Nat) :
    Int × Option String :=
  let h := st.handler id
  let s := st.slots id.toIdx
  match h.serialize?, s.has_value with
  | none, _ => (-1, none)
  | some _, false => (-1, none)
  | some f, true =>
    match s.buf with
    | some v => f v n
    | none => (-1, none)

/-! ### Program 2: `ParameterTraits` (parameters_min.cpp) -/

namespace Params

/-- `enum class ParameterID : uint16_t` of the second program. -/
inductive ParameterID where
  | TemperatureSetpoint
  | HighTemperatureAlarm
deriving DecidableEq

/-- Second program's `struct TemperatureSetpoint { float value; }`. -/
structure TemperatureSetpoint where
  value : CFloat
deriving DecidableEq

/-- `struct HighTemperatureAlarm { float threshold; }`. -/
structure HighTemperatureAlarm where
  threshold : CFloat
deriving DecidableEq

end Params

namespace ParameterTraitsTemperatureSetpoint

/-- `ParameterTraits<TemperatureSetpoint>::name`. -/
def name : String := "TemperatureSetpoint"

/-- `ParameterTraits<TemperatureSetpoint>::default_v { 37.5f }`. -/
def default_v : Params.TemperatureSetpoint := ⟨⟨375, 10⟩⟩

/-- `validate`: `x.value >= 0.0f && x.value <= 100.0f`. -/
def validate (x : Params.TemperatureSetpoint) : Bool :=
  CFloat.le (CFloat.ofInt 0) x.value && CFloat.le x.value (CFloat.ofInt 100)

/-- `parse(const char* in, TemperatureSetpoint& out)`: null check, `strtof`,
fail when no characters were consumed; otherwise write the value into `out`
and return `validate(out)` — this descriptor's parse calls validate
internally. -/
def parse (in? : Option String) (out : Params.TemperatureSetpoint) :
    Bool × Params.TemperatureSetpoint :=
  match in? with
  | none => (false, out)
  | some s =>
    match strtofModel s.data with
    | none => (false, out)
    | some v => (validate ⟨v⟩, ⟨v⟩)

/-- `serialize`: `snprintf(out, n, "%.2f", x.value)`. -/
def serialize (x : Params.TemperatureSetpoint) (n : Nat) : Int × Option String :=
  snprintfModel (fixed2 x.value) n

end ParameterTraitsTemperatureSetpoint

namespace ParameterTraitsHighTemperatureAlarm

/-- `ParameterTraits<HighTemperatureAlarm>::name`. -/
def name : String := "HighTemperatureAlarm"

/-- `ParameterTraits<HighTemperatureAlarm>::default_v { 80.0f }`. -/
def default_v : Params.HighTemperatureAlarm := ⟨CFloat.ofInt 80⟩

/-- `validate`: `x.threshold >= 0.0f && x.threshold <= 150.0f`. -/
def validate (x : Params.HighTemperatureAlarm) : Bool :=
  CFloat.le (CFloat.ofInt 0) x.threshold && CFloat.le x.threshold (CFloat.ofInt 150)

/-- `parse(const char* in, HighTemperatureAlarm& out)`: same shape as the
setpoint's, including the internal `validate` call on success. -/
def parse (in? : Option String) (out : Params.HighTemperatureAlarm) :
    Bool × Params.HighTemperatureAlarm :=
  match in? with
  | none => (false, out)
  | some s =>
    match strtofModel s.data with
    | none => (false, out)
    | some v => (validate ⟨v⟩, ⟨v⟩)

/-- `serialize`: `snprintf(out, n, "%.2f", x.threshold)`. -/
def serialize (x : Params.HighTemperatureAlarm) (n : Nat) : Int × Option String :=
  snprintfModel (fixed2 x.threshold) n

end ParameterTraitsHighTemperatureAlarm

/-! ### Helper lemmas about the decimal helpers -/

theorem natDigsAux_eq_digits :
    ∀ (fuel n : Nat), n ≤ fuel → natDigsAux fuel n = Nat.digits 10 n := by
  intro fuel
  induction fuel with
  | zero =>
    intro n hn
    interval_cases n
    simp [natDigsAux]
  | succ fuel ih =>
    intro n hn
    cases n with
    | zero => simp [natDigsAux]
    | succ m =>
      have hdiv : (m + 1) / 10 ≤ fuel := by
        have : (m + 1) / 10 < m + 1 := Nat.div_lt_self (Nat.succ_pos m) (by norm_num)
        omega
      rw [natDigsAux, ih _ hdiv,
        Nat.digits_def' (by norm_num : (1 : ℕ) < 10) (Nat.succ_pos m)]

theorem natDigs_eq_digits (n : Nat) : natDigs n = Nat.digits 10 n :=
  natDigsAux_eq_digits n n le_rfl

theorem valueOfDigits_reverse (L : List Nat) :
    valueOfDigits L.reverse = Nat.ofDigits 10 L := by
  induction L with
  | nil => rfl
  | cons d L ih =>
    have hfold :
        valueOfDigits (L.reverse ++ [d])
          = 10 * valueOfDigits L.reverse + d := by
      simp [valueOfDigits, List.foldl_append]
    rw [List.reverse_cons, hfold, ih, Nat.ofDigits_cons]
    ring

theorem digitChar_facts {d : Nat} (h : d < 10) :
    digitVal (digitChar d) = some d
    ∧ isSpaceChar (digitChar d) = false
    ∧ digitChar d ≠ '-'
    ∧ digitChar d ≠ '+'
    ∧ '0' ≤ digitChar d
    ∧ digitChar d ≤ '9'
    ∧ (digitChar d = '0' ↔ d = 0) := by
  interval_cases d <;> refine ⟨by decide, by decide, by decide, by decide,
    by decide, by decide, by decide⟩

theorem takeDigits_map_digitChar (ds : List Nat) (h : ∀ d ∈ ds, d < 10) :
    takeDigits (ds.map digitChar) = (ds, []) := by
  induction ds with
  | nil => rfl
  | cons d ds ih =>
    have hd : d < 10 := h d (by simp)
    have ihds := ih (fun x hx => h x (by simp [hx]))
    simp [takeDigits, (digitChar_facts hd).1, ihds]

theorem natRepr_data {n : Nat} (hn : n ≠ 0) :
    (natRepr n).data = ((Nat.digits 10 n).reverse).map digitChar := by
  simp [natRepr, hn, natDigs_eq_digits]

theorem digits_reverse_lt {n : Nat} :
    ∀ d ∈ (Nat.digits 10 n).reverse, d < 10 := fun d hd =>
  Nat.digits_lt_base (by norm_num) (List.mem_reverse.mp hd)

theorem valueOfDigits_digits_reverse (m : Nat) :
    valueOfDigits (Nat.digits 10 m).reverse = m := by
  rw [valueOfDigits_reverse, Nat.ofDigits_digits]

theorem strtolModel_digitString (ds : List Nat) (hne : ds ≠ [])
    (h10 : ∀ d ∈ ds, d < 10) :
    strtolModel (ds.map digitChar) = some ((valueOfDigits ds : Nat) : Int) := by
  obtain ⟨d, ds', rfl⟩ := List.exists_cons_of_ne_nil hne
  have hd : d < 10 := h10 d (by simp)
  have hdrop :
      (digitChar d :: ds'.map digitChar).dropWhile isSpaceChar
        = digitChar d :: ds'.map digitChar := by
    rw [List.dropWhile_cons]
    simp [(digitChar_facts hd).2.1]
  have hsign :
      parseSign (digitChar d :: ds'.map digitChar)
        = (false, digitChar d :: ds'.map digitChar) := by
    simp [parseSign, (digitChar_facts hd).2.2.1, (digitChar_facts hd).2.2.2.1]
  have htake := takeDigits_map_digitChar (d :: ds') h10
  simp only [strtolModel, List.map_cons] at *
  rw [hdrop, hsign, htake]
  simp

theorem strtolModel_natRepr {n : Nat} (hn : n ≠ 0) :
    strtolModel (natRepr n).data = some ((n : Nat) : Int) := by
  have hne : (Nat.digits 10 n).reverse ≠ [] := by
    simpa using Nat.digits_ne_nil_iff_ne_zero.mpr hn
  rw [natRepr_data hn, strtolModel_digitString _ hne digits_reverse_lt,
    valueOfDigits_digits_reverse]

theorem strtolModel_neg_natRepr {m : Nat} (hm : m ≠ 0) :
    strtolModel ('-' :: (natRepr m).data) = some (-(m : Int)) := by
  have hne : (Nat.digits 10 m).reverse ≠ [] := by
    simpa using Nat.digits_ne_nil_iff_ne_zero.mpr hm
  have htake := takeDigits_map_digitChar _ (@digits_reverse_lt m)
  have hempty : ((Nat.digits 10 m).reverse).isEmpty = false := by
    simpa [List.isEmpty_iff] using hne
  have hdropc : isSpaceChar '-' = false := rfl
  have hsign :
      parseSign ('-' :: List.map digitChar (Nat.digits 10 m).reverse)
        = (true, List.map digitChar (Nat.digits 10 m).reverse) := by
    simp [parseSign]
  rw [natRepr_data hm]
  simp only [strtolModel, List.dropWhile_cons, hdropc, Bool.false_eq_true,
    if_false]
  rw [hsign]
  dsimp only
  rw [htake]
  simp [hempty, valueOfDigits_digits_reverse]

theorem strtolModel_intRepr (x : Int) : strtolModel (intRepr x).data = some x := by
  rcases eq_or_ne x 0 with rfl | hx0
  · decide
  rcases lt_or_le x 0 with hneg | hpos
  · have hdata : (intRepr x).data = '-' :: (natRepr x.natAbs).data := by
      simp [intRepr, hneg, String.data_append]
    rw [hdata, strtolModel_neg_natRepr (by omega : x.natAbs ≠ 0)]
    have : -((x.natAbs : Nat) : Int) = x := by omega
    rw [this]
  · have hdata : (intRepr x).data = (natRepr x.natAbs).data := by
      simp [intRepr, not_lt.mpr hpos]
    rw [hdata, strtolModel_natRepr (by omega : x.natAbs ≠ 0)]
    have : ((x.natAbs : Nat) : Int) = x := by omega
    rw [this]

theorem natRepr_head_ne_zero {m : Nat} (hm : m ≠ 0) :
    (natRepr m).data.head? ≠ some '0' := by
  have hne : Nat.digits 10 m ≠ [] := Nat.digits_ne_nil_iff_ne_zero.mpr hm
  have hlast := Nat.getLast_digit_ne_zero 10 hm
  have hlt : (Nat.digits 10 m).getLast hne < 10 :=
    Nat.digits_lt_base (by norm_num) (List.getLast_mem hne)
  rw [natRepr_data hm, List.head?_map, List.head?_reverse,
    List.getLast?_eq_getLast _ hne]
  intro hcon
  simp only [Option.map_some', Option.some.injEq] at hcon
  exact hlast (((digitChar_facts hlt).2.2.2.2.2.2).mp hcon)

theorem natRepr_chars (m : Nat) :
    ∀ c ∈ (natRepr m).data, '0' ≤ c ∧ c ≤ '9' := by
  rcases eq_or_ne m 0 with rfl | hm
  · intro c hc
    have h0 : natRepr 0 = "0" := rfl
    rw [h0, show ("0" : String).data = ['0'] from rfl] at hc
    simp only [List.mem_singleton] at hc
    subst hc
    exact ⟨le_refl _, by decide⟩
  · rw [natRepr_data hm]
    intro c hc
    obtain ⟨d, hd, rfl⟩ := List.mem_map.mp hc
    have hlt : d < 10 := digits_reverse_lt d hd
    exact ⟨(digitChar_facts hlt).2.2.2.2.1, (digitChar_facts hlt).2.2.2.2.2.1⟩

/-! ### Claim theorems -/

/-- C6: for every registered Value Type, the Type Descriptor's default value
satisfies that type's validation predicate: `PropertyTraits`'
`TemperatureSetpoint{23.0}` and `DeviceVoltage{1013}`, and `ParameterTraits`'
`TemperatureSetpoint{37.5}` and `HighTemperatureAlarm{80.0}` all validate. -/
theorem c6_defaults_validate :
    PropertyTraitsTemperatureSetpoint.validate
      PropertyTraitsTemperatureSetpoint.default_v = true
    ∧ PropertyTraitsDeviceVoltage.validate
      PropertyTraitsDeviceVoltage.default_v = true
    ∧ ParameterTraitsTemperatureSetpoint.validate
      ParameterTraitsTemperatureSetpoint.default_v = true
    ∧ ParameterTraitsHighTemperatureAlarm.validate
      ParameterTraitsHighTemperatureAlarm.default_v = true := by
  decide

/-- C7: concrete scenario on the temperature-setpoint identifier (descriptor
with domain [-50, 150] and default 23.0): `setFromText(id, "37.5")` succeeds
and `getAsText` then renders `"37.50"` (return value 5); a subsequent typed
set of `TemperatureSetpoint{-1234.0}` fails, and `getAsText` afterwards still
renders `"37.50"`. -/
theorem c7_concrete_scenario :
    PropertyTraitsTemperatureSetpoint.default_v = ⟨CFloat.ofInt 23⟩
    ∧ PropertyTraitsTemperatureSetpoint.validate ⟨CFloat.ofInt (-50)⟩ = true
    ∧ PropertyTraitsTemperatureSetpoint.validate ⟨CFloat.ofInt 150⟩ = true
    ∧ PropertyTraitsTemperatureSetpoint.validate ⟨CFloat.ofInt (-51)⟩ = false
    ∧ PropertyTraitsTemperatureSetpoint.validate ⟨CFloat.ofInt 151⟩ = false
    ∧ (initStore.setFromText PropertyID.TemperatureSetpoint (some "37.5")).1
        = true
    ∧ ((initStore.setFromText PropertyID.TemperatureSetpoint
          (some "37.5")).2.getAsText PropertyID.TemperatureSetpoint 64)
        = (5, some "37.50")
    ∧ (((initStore.setFromText PropertyID.TemperatureSetpoint
          (some "37.5")).2.set PropertyID.TemperatureSetpoint
            (PropValue.temp ⟨⟨-1234, 1⟩⟩)).1) = false
    ∧ ((((initStore.setFromText PropertyID.TemperatureSetpoint
          (some "37.5")).2.set PropertyID.TemperatureSetpoint
            (PropValue.temp ⟨⟨-1234, 1⟩⟩)).2).getAsText
              PropertyID.TemperatureSetpoint 64)
        = (5, some "37.50") := by
  refine ⟨rfl, by decide, by decide, by decide, by decide, by decide,
    by decide, by decide, by decide⟩

/-- C3 counterexample: not every Type Descriptor's parse accepts every text
with a valid numeric prefix.  `"-1234.0"` has a valid numeric prefix (the
modelled `strtof` consumes it, value -1234), yet
`ParameterTraits<TemperatureSetpoint>::parse` returns `false` on it, because
this descriptor's parse ends with `return validate(out)` and -1234 is outside
[0, 100]. -/
theorem c3_counterexample :
    strtofModel "-1234.0".data = some ⟨-12340, 10⟩
    ∧ (ParameterTraitsTemperatureSetpoint.parse (some "-1234.0")
        ⟨CFloat.ofInt 0⟩).1 = false := by
  refine ⟨by decide, by decide⟩

/-- C8 counterexample: the integral parse does not always store the token's
numeric value.  On `"40000"` the strtol value 40000 is narrowed by
`static_cast<int16_t>` to -25536, so the stored scalar differs from the
token's value. -/
theorem c8_counterexample :
    PropertyTraitsDeviceVoltage.parse (some "40000") ⟨0⟩ = (true, ⟨-25536⟩)
    ∧ ((-25536 : Int) ≠ 40000) := by
  refine ⟨by decide, by decide⟩

/-- C9: handler lookup is a plain constant-time array index.  Every in-range
identifier resolves to its table entry, but an out-of-range ordinal (such as
2, the first value past the two enumerators) is NOT detected by the source:
`PropertyStore::handler` contains no bounds check or assertion in any build
mode, so such an access reads past `kPropertyTable` (undefined behavior,
marked `none` in the model) instead of failing loudly. -/
theorem c9_lookup_unchecked :
    (∀ id : PropertyID, handlerAt id.toNat = some (initStore.handler id))
    ∧ handlerAt 2 = none
    ∧ kPropertyCount = 2 := by
  refine ⟨fun id => ?_, rfl, rfl⟩
  cases id <;> rfl

/-- C4: the handler table's entry count equals the cardinality of the
`PropertyID` enumeration, and for every identifier in range the entry at its
ordinal declares the byte size `sizeof` of the Value Type bound to that
identifier. -/
theorem c4_table_invariant :
    kPropertyTable.length = Fintype.card PropertyID
    ∧ ∀ id : PropertyID,
        ∃ e, handlerAt id.toNat = some e ∧ e.size = id.sizeofBound := by
  refine ⟨by decide, fun id => ?_⟩
  cases id
  · exact ⟨tempHandler, rfl, rfl⟩
  · exact ⟨voltHandler, rfl, rfl⟩

/-- C10: every per-type parse function returns failure on a null text pointer
(leaving its out-parameter untouched), and `setFromText` with a null pointer
returns `false` and leaves the store completely unchanged. -/
theorem c10_null_text (st : PropertyStore) (id : PropertyID)
    (o1 : TemperatureSetpoint) (o2 : DeviceVoltage)
    (o3 : Params.TemperatureSetpoint) (o4 : Params.HighTemperatureAlarm) :
    PropertyTraitsTemperatureSetpoint.parse none o1 = (false, o1)
    ∧ PropertyTraitsDeviceVoltage.parse none o2 = (false, o2)
    ∧ ParameterTraitsTemperatureSetpoint.parse none o3 = (false, o3)
    ∧ ParameterTraitsHighTemperatureAlarm.parse none o4 = (false, o4)
    ∧ st.setFromText id none = (false, st) := by
  refine ⟨rfl, rfl, rfl, rfl, ?_⟩
  cases id <;>
    simp [PropertyStore.setFromText, PropertyStore.handler, kPropertyTable,
      PropertyID.toIdx, tempHandler, voltHandler, tempParseErased,
      voltParseErased, PropertyTraitsTemperatureSetpoint.parse,
      PropertyTraitsDeviceVoltage.parse]

/-- C5: reads on a never-written slot fail: with the presence flag still
false, `get`/`getRaw` return false (none) and `getAsText` returns the -1
sentinel, none of them writing to the caller's output; `get`/`getRaw` also
fail whenever the slot's recorded length differs from the requested size; and
every slot of a freshly constructed store is in that never-written state. -/
theorem c5_read_before_write (st : PropertyStore) (id : PropertyID)
    (sz n : Nat) :
    ((st.slots id.toIdx).has_value = false →
        st.get id sz = none
        ∧ st.getRaw id sz = none
        ∧ st.getAsText id n = (-1, none))
    ∧ ((st.slots id.toIdx).sz ≠ sz → st.getRaw id sz = none)
    ∧ (initStore.slots id.toIdx).has_value = false := by
  refine ⟨fun h => ⟨?_, ?_, ?_⟩, fun h => ?_, rfl⟩
  · simp [PropertyStore.get, PropertyStore.getRaw, h]
  · simp [PropertyStore.getRaw, h]
  · cases id <;>
      simp_all [PropertyStore.getAsText, PropertyStore.handler,
        PropertyID.toIdx, kPropertyTable, tempHandler, voltHandler]
  · simp [PropertyStore.getRaw, h]

/-- C5 witness: on a freshly constructed store, the temperature identifier
has never been written, and all three reads fail without output. -/
theorem c5_witness :
    (initStore.get PropertyID.TemperatureSetpoint 4 = none
      ∧ initStore.getRaw PropertyID.TemperatureSetpoint 4 = none
      ∧ initStore.getAsText PropertyID.TemperatureSetpoint 64 = (-1, none))
    ∧ initStore.getRaw PropertyID.TemperatureSetpoint 4 = none
    ∧ (initStore.slots PropertyID.TemperatureSetpoint.toIdx).has_value
        = false :=
  ⟨(c5_read_before_write initStore PropertyID.TemperatureSetpoint 4 64).1 rfl,
   (c5_read_before_write initStore PropertyID.TemperatureSetpoint 4 64).2.1
     (by decide),
   (c5_read_before_write initStore PropertyID.TemperatureSetpoint 4 64).2.2⟩

/-- C1: every set operation is all-or-nothing.  Whenever
`setRaw`/`set`/`setFromText` returns false, the resulting store is exactly
the prior store (so the target slot's buffer, recorded length and presence
flag — including the never-written state — are untouched); and a store can
change only through the success branch, i.e. only after `validate` accepted
the scratch copy (for `setFromText`, only after parse produced a scratch
value that `validate` accepted). -/
theorem c1_all_or_nothing (st : PropertyStore) (id : PropertyID)
    (data v : PropValue) (sz : Nat) (text : Option String) :
    ((st.setRaw id data sz).1 = false → (st.setRaw id data sz).2 = st)
    ∧ ((st.set id v).1 = false → (st.set id v).2 = st)
    ∧ ((st.setFromText id text).1 = false → (st.setFromText id text).2 = st)
    ∧ ((st.setRaw id data sz).2 = st
        ∨ ((st.setRaw id data sz).1 = true
            ∧ (st.handler id).validate data = true ∧ sz = (st.handler id).size))
    ∧ ((st.setFromText id text).2 = st
        ∨ ((st.setFromText id text).1 = true
            ∧ ∃ p w, (st.handler id).parse? = some p ∧ p text = some w
                ∧ (st.handler id).validate w = true)) := by
  refine ⟨?_, ?_, ?_, ?_, ?_⟩
  · intro h
    by_cases h1 : sz = (st.handler id).size
    · rcases Bool.dichotomy ((st.handler id).validate data) with hval | hval
      · simp [PropertyStore.setRaw, h1, hval]
      · exfalso
        simp [PropertyStore.setRaw, h1, hval] at h
    · simp [PropertyStore.setRaw, h1]
  · intro h
    by_cases h1 : v.size = (st.handler id).size
    · rcases Bool.dichotomy ((st.handler id).validate v) with hval | hval
      · simp [PropertyStore.set, PropertyStore.setRaw, h1, hval]
      · exfalso
        simp [PropertyStore.set, PropertyStore.setRaw, h1, hval] at h
    · simp [PropertyStore.set, PropertyStore.setRaw, h1]
  · intro h
    rcases hp : (st.handler id).parse? with _ | p
    · simp [PropertyStore.setFromText, hp]
    · rcases hw : p text with _ | w
      · simp [PropertyStore.setFromText, hp, hw]
      · rcases Bool.dichotomy ((st.handler id).validate w) with hval | hval
        · simp [PropertyStore.setFromText, hp, hw, hval]
        · exfalso
          simp [PropertyStore.setFromText, hp, hw, hval] at h
  · by_cases h1 : sz = (st.handler id).size
    · rcases Bool.dichotomy ((st.handler id).validate data) with hval | hval
      · exact Or.inl (by simp [PropertyStore.setRaw, h1, hval])
      · exact Or.inr ⟨by simp [PropertyStore.setRaw, h1, hval], hval, h1⟩
    · exact Or.inl (by simp [PropertyStore.setRaw, h1])
  · rcases hp : (st.handler id).parse? with _ | p
    · exact Or.inl (by simp [PropertyStore.setFromText, hp])
    · rcases hw : p text with _ | w
      · exact Or.inl (by simp [PropertyStore.setFromText, hp, hw])
      · rcases Bool.dichotomy ((st.handler id).validate w) with hval | hval
        · exact Or.inl (by simp [PropertyStore.setFromText, hp, hw, hval])
        · exact Or.inr ⟨by simp [PropertyStore.setFromText, hp, hw, hval],
            p, w, rfl, hw, hval⟩

/-- C1 witness: concrete failing commits leave a concrete store unchanged —
a typed/raw set of the out-of-domain `TemperatureSetpoint{-1234.0}` and a
`setFromText` of the unparsable `"abc"`, all on a fresh store. -/
theorem c1_witness :
    (initStore.setRaw PropertyID.TemperatureSetpoint
      (PropValue.temp ⟨⟨-1234, 1⟩⟩) 4).2 = initStore
    ∧ (initStore.set PropertyID.TemperatureSetpoint
      (PropValue.temp ⟨⟨-1234, 1⟩⟩)).2 = initStore
    ∧ (initStore.setFromText PropertyID.TemperatureSetpoint
      (some "abc")).2 = initStore :=
  ⟨(c1_all_or_nothing initStore PropertyID.TemperatureSetpoint
      (PropValue.temp ⟨⟨-1234, 1⟩⟩) (PropValue.temp ⟨⟨-1234, 1⟩⟩) 4
      (some "abc")).1 (by decide),
   (c1_all_or_nothing initStore PropertyID.TemperatureSetpoint
      (PropValue.temp ⟨⟨-1234, 1⟩⟩) (PropValue.temp ⟨⟨-1234, 1⟩⟩) 4
      (some "abc")).2.1 (by decide),
   (c1_all_or_nothing initStore PropertyID.TemperatureSetpoint
      (PropValue.temp ⟨⟨-1234, 1⟩⟩) (PropValue.temp ⟨⟨-1234, 1⟩⟩) 4
      (some "abc")).2.2.1 (by decide)⟩

/-- C2: typed round trip.  For every identifier and every value of the bound
Value Type that the descriptor's validate accepts, `set(id, v)` returns true
and a subsequent `get(id, out)` with the same type (hence requested size
`sizeof(T)`) returns true with `out` byte-for-byte equal to `v`. -/
theorem c2_typed_round_trip (st : PropertyStore) (id : PropertyID)
    (v : PropValue) (ht : v.tag = id.boundTag)
    (hv : (st.handler id).validate v = true) :
    (st.set id v).1 = true ∧ (st.set id v).2.get id v.size = some v := by
  cases id <;> cases v <;>
    simp_all [PropertyStore.set, PropertyStore.setRaw, PropertyStore.get,
      PropertyStore.getRaw, PropertyStore.handler, PropertyID.toIdx,
      PropertyID.boundTag, PropValue.tag, PropValue.size, kPropertyTable,
      tempHandler, voltHandler, sizeofTemperatureSetpoint,
      sizeofDeviceVoltage]

/-- C2 witness: the round trip at the voltage identifier with value 1015. -/
theorem c2_witness :
    (initStore.set PropertyID.DeviceVoltage (PropValue.volt ⟨1015⟩)).1 = true
    ∧ (initStore.set PropertyID.DeviceVoltage
        (PropValue.volt ⟨1015⟩)).2.get PropertyID.DeviceVoltage
          (PropValue.volt ⟨1015⟩).size = some (PropValue.volt ⟨1015⟩) :=
  c2_typed_round_trip initStore PropertyID.DeviceVoltage
    (PropValue.volt ⟨1015⟩) rfl (by decide)

/-- C3 amended: parse/validate independence holds for the `PropertyTraits`
descriptors of the property store — their parse accepts any text whose
(modelled) numeric scan succeeds, regardless of the domain, and the store
separately requires both parse and validate to pass before committing — but
NOT for every Type Descriptor: the `ParameterTraits` descriptors' parse
internally calls validate, so there a parse success does imply validation
success. -/
theorem c3_amended (s1 s2 : String) (out1 : TemperatureSetpoint)
    (out2 : DeviceVoltage) (q : CFloat) (z : Int)
    (t3 t4 : Option String) (out3 r3 : Params.TemperatureSetpoint)
    (out4 r4 : Params.HighTemperatureAlarm)
    (st : PropertyStore) (id : PropertyID) (text : Option String) :
    (strtofModel s1.data = some q →
        PropertyTraitsTemperatureSetpoint.parse (some s1) out1 = (true, ⟨q⟩))
    ∧ (strtolModel s2.data = some z →
        PropertyTraitsDeviceVoltage.parse (some s2) out2
          = (true, ⟨toInt16 z⟩))
    ∧ (ParameterTraitsTemperatureSetpoint.parse t3 out3 = (true, r3) →
        ParameterTraitsTemperatureSetpoint.validate r3 = true)
    ∧ (ParameterTraitsHighTemperatureAlarm.parse t4 out4 = (true, r4) →
        ParameterTraitsHighTemperatureAlarm.validate r4 = true)
    ∧ ((st.setFromText id text).1 = true →
        ∃ p w, (st.handler id).parse? = some p ∧ p text = some w
          ∧ (st.handler id).validate w = true) := by
  refine ⟨?_, ?_, ?_, ?_, ?_⟩
  · intro h
    simp [PropertyTraitsTemperatureSetpoint.parse, h]
  · intro h
    simp [PropertyTraitsDeviceVoltage.parse, h]
  · intro h
    cases t3 with
    | none => simp [ParameterTraitsTemperatureSetpoint.parse] at h
    | some s =>
      rcases hq : strtofModel s.data with _ | w
      · simp [ParameterTraitsTemperatureSetpoint.parse, hq] at h
      · simp only [ParameterTraitsTemperatureSetpoint.parse, hq,
          Prod.mk.injEq] at h
        rcases h with ⟨hval, rfl⟩
        exact hval
  · intro h
    cases t4 with
    | none => simp [ParameterTraitsHighTemperatureAlarm.parse] at h
    | some s =>
      rcases hq : strtofModel s.data with _ | w
      · simp [ParameterTraitsHighTemperatureAlarm.parse, hq] at h
      · simp only [ParameterTraitsHighTemperatureAlarm.parse, hq,
          Prod.mk.injEq] at h
        rcases h with ⟨hval, rfl⟩
        exact hval
  · intro h
    rcases hp : (st.handler id).parse? with _ | p
    · simp [PropertyStore.setFromText, hp] at h
    · rcases hw : p text with _ | w
      · simp [PropertyStore.setFromText, hp, hw] at h
      · rcases Bool.dichotomy ((st.handler id).validate w) with hval | hval
        · simp [PropertyStore.setFromText, hp, hw, hval] at h
        · exact ⟨p, w, rfl, hw, hval⟩

/-- C3 amended witness: `PropertyTraits` parse accepts the out-of-domain
`"-1234.0"` (value -1234, outside [-50, 150]) and the integral parse accepts
`"40000"`; `ParameterTraits` parse on `"42.0"` returns true with a value
that validates; and a successful `setFromText "37.5"` on a fresh store went
through a successful parse and a successful validate. -/
theorem c3_amended_witness :
    PropertyTraitsTemperatureSetpoint.parse (some "-1234.0")
        ⟨CFloat.ofInt 0⟩ = (true, ⟨⟨-12340, 10⟩⟩)
    ∧ PropertyTraitsDeviceVoltage.parse (some "40000") ⟨0⟩
        = (true, ⟨toInt16 40000⟩)
    ∧ ParameterTraitsTemperatureSetpoint.validate ⟨⟨420, 10⟩⟩ = true
    ∧ ParameterTraitsHighTemperatureAlarm.validate ⟨⟨855, 10⟩⟩ = true
    ∧ ∃ p w,
        (initStore.handler PropertyID.TemperatureSetpoint).parse? = some p
        ∧ p (some "37.5") = some w
        ∧ (initStore.handler PropertyID.TemperatureSetpoint).validate w
            = true := by
  have h := c3_amended "-1234.0" "40000" ⟨CFloat.ofInt 0⟩ ⟨0⟩ ⟨-12340, 10⟩
    40000 (some "42.0") (some "85.5") ⟨CFloat.ofInt 0⟩ ⟨⟨420, 10⟩⟩
    ⟨CFloat.ofInt 0⟩ ⟨⟨855, 10⟩⟩ initStore PropertyID.TemperatureSetpoint
    (some "37.5")
  exact ⟨h.1 (by decide), h.2.1 (by decide), h.2.2.1 (by decide),
    h.2.2.2.1 (by decide), h.2.2.2.2 (by decide)⟩

/-- C8 amended: the integral codec parses decimal text by standard base-10
integer parsing and stores the token's value narrowed to `int16_t` by
two's-complement wrap — equal to the token's numeric value exactly when it
lies in [-32768, 32767] — and serialize renders the stored scalar as plain
decimal digits with no leading zeros and a minus sign only if negative
(base-10 re-parsing the rendering recovers the value). -/
theorem c8_amended (s : String) (v x : Int) (out : DeviceVoltage) (n : Nat)
    (hp : strtolModel s.data = some v) :
    PropertyTraitsDeviceVoltage.parse (some s) out = (true, ⟨toInt16 v⟩)
    ∧ (-32768 ≤ v → v < 32768 → toInt16 v = v)
    ∧ PropertyTraitsDeviceVoltage.serialize ⟨x⟩ n
        = (((intRepr x).length : Int), some ((intRepr x).take (n - 1)))
    ∧ intRepr x = (if x < 0 then "-" else "") ++ natRepr x.natAbs
    ∧ (x ≠ 0 → (natRepr x.natAbs).data.head? ≠ some '0')
    ∧ (∀ c ∈ (natRepr x.natAbs).data, '0' ≤ c ∧ c ≤ '9')
    ∧ strtolModel (intRepr x).data = some x := by
  refine ⟨?_, ?_, rfl, rfl, ?_, natRepr_chars x.natAbs, strtolModel_intRepr x⟩
  · simp [PropertyTraitsDeviceVoltage.parse, hp]
  · intro h1 h2
    unfold toInt16
    omega
  · intro hx
    exact natRepr_head_ne_zero (by omega)

/-- C8 amended witness: at the token `"1015"` (in range: parse stores 1015
itself) and the stored scalar -107 (renders as `"-107"`, which has no
leading zero, only digits after the sign, and re-parses to -107). -/
theorem c8_amended_witness :
    PropertyTraitsDeviceVoltage.parse (some "1015") ⟨0⟩
        = (true, ⟨toInt16 1015⟩)
    ∧ toInt16 1015 = 1015
    ∧ PropertyTraitsDeviceVoltage.serialize ⟨-107⟩ 64
        = (((intRepr (-107)).length : Int), some ((intRepr (-107)).take 63))
    ∧ intRepr (-107) = (if (-107 : Int) < 0 then "-" else "")
        ++ natRepr (Int.natAbs (-107))
    ∧ (natRepr (Int.natAbs (-107))).data.head? ≠ some '0'
    ∧ (∀ c ∈ (natRepr (Int.natAbs (-107))).data, '0' ≤ c ∧ c ≤ '9')
    ∧ strtolModel (intRepr (-107)).data = some (-107) := by
  have h1015 := c8_amended "1015" 1015 (-107) ⟨0⟩ 64 (by decide)
  exact ⟨h1015.1, h1015.2.1 (by decide) (by decide), h1015.2.2.1,
    h1015.2.2.2.1, h1015.2.2.2.2.1 (by decide), h1015.2.2.2.2.2.1,
    h1015.2.2.2.2.2.2⟩
